import Mathlib

/-!
Shallow embedding of the SLAPxInterView backend glue code
(src/backend/src/config/stream.js, src/backend/src/controllers/chat.controller.js,
src/backend/src/server.js) and proofs of the specified properties.

JavaScript exceptions are modelled with `Except Err`; external SDK calls made
through the stream-chat client are modelled as fields of a `StreamClient`
record of oracles, and each call that a function performs is recorded in an
explicit event trace so that call-count, call-order and frame properties can
be stated.
-/

deriving instance DecidableEq for Except

namespace SlapChat

/-- Generic JavaScript error value (all SDK failures are generic Error instances). -/
inductive Err where
  | mk (msg : String)
deriving DecidableEq, Repr

/-- A JavaScript value of which the code only uses the toString method, which
may itself throw (modelled by the stored `Except` result of that call). -/
structure JsValue where
  toStringFn : Except Err String
deriving DecidableEq, Repr

/-- User profile passed to upsertStreamUser; the code reads only the name field
for logging and forwards the whole object to the SDK. -/
structure UserData where
  name : String
deriving DecidableEq, Repr

/-- A chat-provider channel, identified by its id. -/
structure Channel where
  id : String
deriving DecidableEq, Repr

/-- Filter object passed to queryChannels. -/
structure ChannelFilter where
  discoverable : Bool
deriving DecidableEq, Repr

/-- Observable events emitted by the backend functions: external SDK calls,
console logging, and (never actually emitted by this code) writes to local
state, included so that frame properties are expressible. -/
inductive Event where
  | createTokenCall (userId : String)
  | upsertUserCall (u : UserData)
  | deleteUserCall (userId : String)
  | queryChannelsCall (filter : ChannelFilter)
  | addMembersCall (channelId : String) (members : List String)
  | logInfo (msg : String)
  | logError (msg : String)
  | localStateWrite (key : String) (value : String)
deriving DecidableEq, Repr

/-- Behaviour of the external stream-chat client: each SDK operation either
returns a value or throws. -/
structure StreamClient where
  createToken : String → Except Err String
  upsertUser : UserData → Except Err Unit
  deleteUser : String → Except Err Unit
  queryChannels : ChannelFilter → Except Err (List Channel)
  addMembers : Channel → List String → Except Err Unit

/-- Boolean test for a non-throwing JavaScript result. -/
def jsOk : Except Err α → Bool
  | Except.ok _ => true
  | Except.error _ => false

/-! ## config/stream.js -/

/-- Embedding of upsertStreamUser: awaits client.upsertUser inside a try block,
logs success and returns userData; the catch block logs the error and falls off
the end (returning undefined, modelled as none) without rethrowing. -/
def upsertStreamUser (client : StreamClient) (userData : UserData) :
    List Event × Except Err (Option UserData) :=
  match client.upsertUser userData with
  | Except.ok _ =>
      ([Event.upsertUserCall userData,
        Event.logInfo ("Stream user upserted:" ++ userData.name)],
       Except.ok (some userData))
  | Except.error _ =>
      ([Event.upsertUserCall userData,
        Event.logError "Error upserting Stream user:"],
       Except.ok none)

/-- Embedding of deleteStreamUser: awaits client.deleteUser inside a try block
and logs; the catch block logs the error and returns normally. -/
def deleteStreamUser (client : StreamClient) (userId : String) :
    List Event × Except Err Unit :=
  match client.deleteUser userId with
  | Except.ok _ =>
      ([Event.deleteUserCall userId,
        Event.logInfo ("Stream user deleted:" ++ userId)],
       Except.ok ())
  | Except.error _ =>
      ([Event.deleteUserCall userId,
        Event.logError "Error deleting Stream user:"],
       Except.ok ())

/-- Embedding of the try-block body of genrateStreamToken: stringify the
identity, then call client.createToken on the resulting string. -/
def genrateStreamTokenTry (client : StreamClient) (userId : JsValue) :
    List Event × Except Err String :=
  match userId.toStringFn with
  | Except.error e => ([], Except.error e)
  | Except.ok s =>
      match client.createToken s with
      | Except.error e => ([Event.createTokenCall s], Except.error e)
      | Except.ok t => ([Event.createTokenCall s], Except.ok t)

/-- Embedding of genrateStreamToken: on any throw inside the try block the
catch clause logs and returns null (modelled as none); it never rethrows. -/
def genrateStreamToken (client : StreamClient) (userId : JsValue) :
    List Event × Except Err (Option String) :=
  match genrateStreamTokenTry client userId with
  | (evs, Except.ok t) => (evs, Except.ok (some t))
  | (evs, Except.error _) =>
      (evs ++ [Event.logError "Error generating Stream token:"], Except.ok none)

/-- Embedding of the for-of loop in addUserToPublicChannels: one awaited
addMembers call per channel, in list order; a throw aborts the loop and
propagates (there is no try block around it in the source). -/
def addMembersLoop (client : StreamClient) (newUserId : String) :
    List Channel → List Event × Except Err Unit
  | [] => ([], Except.ok ())
  | c :: rest =>
      match client.addMembers c [newUserId] with
      | Except.error e => ([Event.addMembersCall c.id [newUserId]], Except.error e)
      | Except.ok _ =>
          let p := addMembersLoop client newUserId rest
          (Event.addMembersCall c.id [newUserId] :: p.1, p.2)

/-- Embedding of addUserToPublicChannels: queries channels with the filter
having discoverable set to true, then adds the new user to each channel
sequentially; it has no error handling of its own. -/
def addUserToPublicChannels (client : StreamClient) (newUserId : String) :
    List Event × Except Err Unit :=
  match client.queryChannels { discoverable := true } with
  | Except.error e =>
      ([Event.queryChannelsCall { discoverable := true }], Except.error e)
  | Except.ok chans =>
      let p := addMembersLoop client newUserId chans
      (Event.queryChannelsCall { discoverable := true } :: p.1, p.2)

/-! ## controllers/chat.controller.js and server.js -/

/-- Response body shapes produced by the code under study. -/
inductive Body where
  | tokenBody (t : Option String)
  | messageBody (m : String)
  | textBody (s : String)
deriving DecidableEq, Repr

/-- An HTTP response: status code plus JSON or text body. -/
structure Response where
  status : Nat
  body : Body
deriving DecidableEq, Repr

/-- Result of the req.auth() call placed on the request by the authentication
middleware; the call itself may throw (for example when the middleware did not
run), hence the `Except`. -/
structure AuthObject where
  userId : JsValue
deriving DecidableEq, Repr

/-- An incoming HTTP request as seen by the handlers. -/
structure Request where
  auth : Except Err AuthObject
deriving DecidableEq, Repr

/-- Embedding of getStreamToken: inside a try block it calls req.auth(),
reads userId, awaits genrateStreamToken and answers 200 with the token; any
throw inside the try block is answered with 500 and a fixed message.
genrateStreamToken itself never throws, so only the req.auth() call can
reach the catch clause. -/
def getStreamToken (client : StreamClient) (req : Request) :
    List Event × Response :=
  match req.auth with
  | Except.error _ =>
      ([], { status := 500, body := Body.messageBody "Error generating stream token" })
  | Except.ok a =>
      match genrateStreamToken client a.userId with
      | (evs, Except.ok tok) => (evs, { status := 200, body := Body.tokenBody tok })
      | (evs, Except.error _) =>
          (evs, { status := 500, body := Body.messageBody "Error generating stream token" })

/-- Embedding of the root route handler in server.js: res.send of the greeting
(Express sends status 200 by default). -/
def rootHandler (_req : Request) : Response :=
  { status := 200, body := Body.textBody "Hello World!" }

/-- Environment configuration read by startServer. -/
structure Env where
  NODE_ENV : String
  PORT : Nat
deriving DecidableEq, Repr

/-- Events emitted by startServer. -/
inductive ServerEvent where
  | connectDBCall
  | listenCall (port : Nat)
  | logError (msg : String)
  | processExit (code : Nat)
deriving DecidableEq, Repr

/-- Embedding of startServer: when NODE_ENV differs from production it awaits
connectDB and then calls app.listen on the configured port; a throw from
connectDB is caught, logged and followed by process.exit(1); when NODE_ENV
equals production the guarded block is skipped entirely. -/
def startServer (env : Env) (connectDB : Except Err Unit) : List ServerEvent :=
  if env.NODE_ENV ≠ "production" then
    match connectDB with
    | Except.error _ =>
        [ServerEvent.connectDBCall,
         ServerEvent.logError "Error starting server:",
         ServerEvent.processExit 1]
    | Except.ok _ => [ServerEvent.connectDBCall, ServerEvent.listenCall env.PORT]
  else []

/-! ## Concrete fixtures used by witnesses and counterexamples -/

/-- A client for which every SDK call succeeds; createToken mints a token
derived from the identity and queryChannels returns two channels. -/
def okClient : StreamClient where
  createToken := fun s => Except.ok ("tok_" ++ s)
  upsertUser := fun _ => Except.ok ()
  deleteUser := fun _ => Except.ok ()
  queryChannels := fun _ => Except.ok [{ id := "general" }, { id := "random" }]
  addMembers := fun _ _ => Except.ok ()

/-- A client for which every SDK call throws a network error. -/
def failClient : StreamClient where
  createToken := fun _ => Except.error (Err.mk "network")
  upsertUser := fun _ => Except.error (Err.mk "network")
  deleteUser := fun _ => Except.error (Err.mk "network")
  queryChannels := fun _ => Except.error (Err.mk "network")
  addMembers := fun _ _ => Except.error (Err.mk "network")

/-- A request whose req.auth() call succeeds with caller identity user_123. -/
def authedReq : Request :=
  { auth := Except.ok { userId := { toStringFn := Except.ok "user_123" } } }

/-! ## Shared helper lemmas -/

/-- The try and catch branches of upsertStreamUser both return without throwing. -/
theorem upsertStreamUser_ok (client : StreamClient) (u : UserData) :
    jsOk (upsertStreamUser client u).2 = true := by
  unfold upsertStreamUser
  cases client.upsertUser u <;> rfl

/-- The try and catch branches of deleteStreamUser both return without throwing. -/
theorem deleteStreamUser_ok (client : StreamClient) (userId : String) :
    jsOk (deleteStreamUser client userId).2 = true := by
  unfold deleteStreamUser
  cases client.deleteUser userId <;> rfl

/-- When every addMembers call succeeds, the loop emits one call event per
channel, in list order, and returns without throwing. -/
theorem addMembersLoop_all_ok (client : StreamClient) (uid : String)
    (chans : List Channel)
    (hall : ∀ c ∈ chans, client.addMembers c [uid] = Except.ok ()) :
    addMembersLoop client uid chans =
      (chans.map fun c => Event.addMembersCall c.id [uid], Except.ok ()) := by
  induction chans with
  | nil => rfl
  | cons c rest ih =>
      have hc : client.addMembers c [uid] = Except.ok () :=
        hall c (List.mem_cons_self c rest)
      have ih2 := ih (fun x hx => hall x (List.mem_cons_of_mem c hx))
      simp [addMembersLoop, hc, ih2]

/-! ## Claim theorems -/

/-- C2: for every client behaviour and every input identity, if stringifying
the identity throws or the providers createToken call throws, genrateStreamToken
returns null (none) wrapped in a non-throwing result, raising no error. -/
theorem genrateStreamToken_null_on_error (client : StreamClient) (userId : JsValue)
    (h : jsOk userId.toStringFn = false ∨
      ∃ s, userId.toStringFn = Except.ok s ∧ jsOk (client.createToken s) = false) :
    (genrateStreamToken client userId).2 = Except.ok none := by
  rcases h with h | ⟨s, hs, hc⟩
  · cases hts : userId.toStringFn with
    | error e => simp [genrateStreamToken, genrateStreamTokenTry, hts]
    | ok s => rw [hts] at h; simp [jsOk] at h
  · cases hct : client.createToken s with
    | error e => simp [genrateStreamToken, genrateStreamTokenTry, hs, hct]
    | ok t => rw [hct] at hc; simp [jsOk] at hc

/-- C2 witness: the failing client at identity user_123. -/
theorem genrateStreamToken_null_on_error_witness :
    (jsOk (JsValue.mk (Except.ok "user_123")).toStringFn = false ∨
      ∃ s, (JsValue.mk (Except.ok "user_123")).toStringFn = Except.ok s ∧
        jsOk (failClient.createToken s) = false) ∧
    (genrateStreamToken failClient (JsValue.mk (Except.ok "user_123"))).2 =
      Except.ok none :=
  ⟨Or.inr ⟨"user_123", rfl, rfl⟩,
   genrateStreamToken_null_on_error failClient (JsValue.mk (Except.ok "user_123"))
     (Or.inr ⟨"user_123", rfl, rfl⟩)⟩

/-- C3: for every request whose req.auth() call succeeds, when stringifying the
identity succeeds and the providers createToken call returns token t, the
endpoint answers 200 with body containing exactly that token. -/
theorem getStreamToken_success (client : StreamClient) (req : Request)
    (a : AuthObject) (s t : String)
    (ha : req.auth = Except.ok a) (hs : a.userId.toStringFn = Except.ok s)
    (ht : client.createToken s = Except.ok t) :
    (getStreamToken client req).2 =
      { status := 200, body := Body.tokenBody (some t) } := by
  simp [getStreamToken, genrateStreamToken, genrateStreamTokenTry, ha, hs, ht]

/-- C3 witness: the all-success client on the authenticated request mints
tok_user_123 and the endpoint returns it with status 200. -/
theorem getStreamToken_success_witness :
    authedReq.auth = Except.ok { userId := { toStringFn := Except.ok "user_123" } } ∧
    (getStreamToken okClient authedReq).2 =
      { status := 200, body := Body.tokenBody (some "tok_user_123") } :=
  ⟨rfl, getStreamToken_success okClient authedReq
    { userId := { toStringFn := Except.ok "user_123" } } "user_123" "tok_user_123"
    rfl rfl rfl⟩

/-- C6: upsertStreamUser and deleteStreamUser never throw to their caller, for
every client behaviour (including throwing SDK calls) and every input. -/
theorem upsert_delete_never_throw (client : StreamClient) (u : UserData)
    (userId : String) :
    jsOk (upsertStreamUser client u).2 = true ∧
    jsOk (deleteStreamUser client userId).2 = true :=
  ⟨upsertStreamUser_ok client u, deleteStreamUser_ok client userId⟩

/-- C8: every request to the root path is answered with status 200 and the
plaintext body Hello World!. -/
theorem rootHandler_hello (req : Request) :
    rootHandler req = { status := 200, body := Body.textBody "Hello World!" } :=
  rfl

/-- Events a token-endpoint request is allowed to emit: the external
createToken call and console error logging. -/
def externalOrLog : Event → Bool
  | Event.createTokenCall _ => true
  | Event.logError _ => true
  | _ => false

/-- C9: a token-endpoint request has no side effects beyond the external call:
its whole event trace consists of the external createToken call and console
logging; in particular it contains no localStateWrite event, so no local state
is modified and the issued token is not stored anywhere locally. -/
theorem getStreamToken_frame (client : StreamClient) (req : Request) :
    ((getStreamToken client req).1).all externalOrLog = true := by
  cases hauth : req.auth with
  | error e => simp [getStreamToken, hauth]
  | ok a =>
      cases hts : a.userId.toStringFn with
      | error e =>
          simp [getStreamToken, genrateStreamToken, genrateStreamTokenTry, hauth,
            hts, externalOrLog]
      | ok s =>
          cases hct : client.createToken s with
          | error e =>
              simp [getStreamToken, genrateStreamToken, genrateStreamTokenTry,
                hauth, hts, hct, externalOrLog]
          | ok t =>
              simp [getStreamToken, genrateStreamToken, genrateStreamTokenTry,
                hauth, hts, hct, externalOrLog]

/-- C1 counterexample: with an authenticated caller identity and a provider
whose createToken call throws, the endpoint answers status 200 with a null
token, not status 500 with the generic message as the claim states. -/
theorem tokenEndpoint_provider_error_not_500 :
    (getStreamToken failClient authedReq).2 =
      { status := 200, body := Body.tokenBody none } ∧
    (getStreamToken failClient authedReq).2.status ≠ 500 :=
  ⟨rfl, by decide⟩

/-- C1 amended: for every request in which req.auth() succeeds, the identity
stringifies, and the providers createToken call throws, the endpoint responds
with status 200 and body with a null token, because genrateStreamToken catches
the provider error and returns null before the controller catch clause can see
it. -/
theorem tokenEndpoint_provider_error_responds_null (client : StreamClient)
    (req : Request) (a : AuthObject) (s : String) (e : Err)
    (ha : req.auth = Except.ok a) (hs : a.userId.toStringFn = Except.ok s)
    (hc : client.createToken s = Except.error e) :
    (getStreamToken client req).2 =
      { status := 200, body := Body.tokenBody none } := by
  simp [getStreamToken, genrateStreamToken, genrateStreamTokenTry, ha, hs, hc]

/-- C1 amended witness: the failing client on the authenticated request. -/
theorem tokenEndpoint_provider_error_responds_null_witness :
    authedReq.auth = Except.ok { userId := { toStringFn := Except.ok "user_123" } } ∧
    failClient.createToken "user_123" = Except.error (Err.mk "network") ∧
    (getStreamToken failClient authedReq).2 =
      { status := 200, body := Body.tokenBody none } :=
  ⟨rfl, rfl,
   tokenEndpoint_provider_error_responds_null failClient authedReq
     { userId := { toStringFn := Except.ok "user_123" } } "user_123"
     (Err.mk "network") rfl rfl rfl⟩

/-- C4: when identity extraction succeeds but the providers createToken call
throws, the endpoint responds 200 with a null token; and the 500 branch is
reachable only when the req.auth() call itself throws. -/
theorem getStreamToken_null_token_and_500_only_on_auth_error
    (client : StreamClient) (req : Request) :
    (∀ a s e, req.auth = Except.ok a → a.userId.toStringFn = Except.ok s →
        client.createToken s = Except.error e →
        (getStreamToken client req).2 =
          { status := 200, body := Body.tokenBody none }) ∧
    ((getStreamToken client req).2.status = 500 →
        ∃ e, req.auth = Except.error e) := by
  constructor
  · intro a s e ha hs hc
    simp [getStreamToken, genrateStreamToken, genrateStreamTokenTry, ha, hs, hc]
  · intro h500
    cases hauth : req.auth with
    | error e => exact ⟨e, rfl⟩
    | ok a =>
        exfalso
        have h200 : (getStreamToken client req).2.status = 200 := by
          cases hts : a.userId.toStringFn with
          | error e =>
              simp [getStreamToken, genrateStreamToken, genrateStreamTokenTry,
                hauth, hts]
          | ok s =>
              cases hct : client.createToken s with
              | error e =>
                  simp [getStreamToken, genrateStreamToken, genrateStreamTokenTry,
                    hauth, hts, hct]
              | ok t =>
                  simp [getStreamToken, genrateStreamToken, genrateStreamTokenTry,
                    hauth, hts, hct]
        rw [h200] at h500
        exact absurd h500 (by decide)

/-- C4 witness: the failing client on the authenticated request. -/
theorem getStreamToken_null_token_witness :
    authedReq.auth = Except.ok { userId := { toStringFn := Except.ok "user_123" } } ∧
    (getStreamToken failClient authedReq).2 =
      { status := 200, body := Body.tokenBody none } :=
  ⟨rfl,
   (getStreamToken_null_token_and_500_only_on_auth_error failClient authedReq).1
     { userId := { toStringFn := Except.ok "user_123" } } "user_123"
     (Err.mk "network") rfl rfl rfl⟩

/-- C5 counterexample: addUserToPublicChannels does not swallow errors: with a
client whose queryChannels call throws, the function propagates the error to
its caller instead of returning normally. -/
theorem addUserToPublicChannels_error_propagates :
    (addUserToPublicChannels failClient "user_123").2 =
      Except.error (Err.mk "network") :=
  rfl

/-- C5 amended: the two lifecycle-sync functions with a try block,
upsertStreamUser and deleteStreamUser, swallow all errors after logging, but
addUserToPublicChannels has no error handling and propagates any failure of
the queryChannels call (and of the addMembers calls) to its caller. -/
theorem lifecycleSync_error_policy (client : StreamClient) (u : UserData)
    (uid : String) (e : Err)
    (hq : client.queryChannels { discoverable := true } = Except.error e) :
    jsOk (upsertStreamUser client u).2 = true ∧
    jsOk (deleteStreamUser client uid).2 = true ∧
    (addUserToPublicChannels client uid).2 = Except.error e := by
  refine ⟨upsertStreamUser_ok client u, deleteStreamUser_ok client uid, ?_⟩
  simp [addUserToPublicChannels, hq]

/-- C5 amended witness: the failing client with a concrete profile. -/
theorem lifecycleSync_error_policy_witness :
    failClient.queryChannels { discoverable := true } =
      Except.error (Err.mk "network") ∧
    (jsOk (upsertStreamUser failClient { name := "Ada" }).2 = true ∧
     jsOk (deleteStreamUser failClient "user_123").2 = true ∧
     (addUserToPublicChannels failClient "user_123").2 =
       Except.error (Err.mk "network")) :=
  ⟨rfl, lifecycleSync_error_policy failClient { name := "Ada" } "user_123"
    (Err.mk "network") rfl⟩

/-- C7: for every list of channels returned by the queryChannels call with the
discoverable filter, enrollment issues exactly one addMembers call per
returned channel, carrying exactly the new user, in the order the channels
were returned, after the single query call. -/
theorem addUserToPublicChannels_one_call_per_channel (client : StreamClient)
    (uid : String) (chans : List Channel)
    (hq : client.queryChannels { discoverable := true } = Except.ok chans)
    (hall : ∀ c ∈ chans, client.addMembers c [uid] = Except.ok ()) :
    (addUserToPublicChannels client uid).1 =
      Event.queryChannelsCall { discoverable := true } ::
        chans.map (fun c => Event.addMembersCall c.id [uid]) := by
  simp [addUserToPublicChannels, hq, addMembersLoop_all_ok client uid chans hall]

/-- C7 witness: the all-success client returns two channels and the trace is
the query call followed by one addMembers call per channel, in order. -/
theorem addUserToPublicChannels_one_call_per_channel_witness :
    okClient.queryChannels { discoverable := true } =
      Except.ok [{ id := "general" }, { id := "random" }] ∧
    (addUserToPublicChannels okClient "user_123").1 =
      [Event.queryChannelsCall { discoverable := true },
       Event.addMembersCall "general" ["user_123"],
       Event.addMembersCall "random" ["user_123"]] :=
  ⟨rfl,
   addUserToPublicChannels_one_call_per_channel okClient "user_123"
     [{ id := "general" }, { id := "random" }] rfl (by decide)⟩

/-- C10: when NODE_ENV equals production, startServer neither connects to the
database nor binds a port (its event trace is empty), and the
connect-and-listen path runs only when NODE_ENV is not production. -/
theorem startServer_production_inert (env : Env) (connectDB : Except Err Unit) :
    (env.NODE_ENV = "production" → startServer env connectDB = []) ∧
    ((ServerEvent.connectDBCall ∈ startServer env connectDB ∨
        ∃ p, ServerEvent.listenCall p ∈ startServer env connectDB) →
      env.NODE_ENV ≠ "production") := by
  constructor
  · intro h
    simp [startServer, h]
  · intro h hprod
    rw [startServer.eq_def, if_neg (by simp [hprod])] at h
    rcases h with h | ⟨p, hp⟩
    · simp at h
    · simp at hp

/-- C10 witness: a concrete production environment yields an empty trace. -/
theorem startServer_production_inert_witness :
    ((Env.mk "production" 3000).NODE_ENV = "production") ∧
    startServer (Env.mk "production" 3000) (Except.ok ()) = [] :=
  ⟨rfl, (startServer_production_inert (Env.mk "production" 3000)
    (Except.ok ())).1 rfl⟩

end SlapChat
